import Mathlib

/-
Verification development for the tauri-nes frontend (a Tauri/React NES emulator shell).

The repository ships several variants of the App component:
  - src/src/App.tsx   : the main variant (controller-state input translator and
                        a requestAnimationFrame loop gated on romLoaded);
  - src/src/app.tsx   : a legacy variant forwarding every raw key event;
  - src/unnamed/part_000 : a variant whose drawFrame copies pixels with an explicit
                        bounded loop;
  - src/unnamed/part_001 : the richest variant (isRunning flag, romStatus readout,
                        frame counter, test-mode toggle, get_frame loop).

Each TypeScript function relevant to the claims is shallowly embedded below as a pure
Lean function; the asynchronous acquisition loops are embedded as explicit transition
systems over a state record, with one transition per atomic segment of the cooperative
event loop (a segment runs from one suspension point, i.e. an awaited invoke call or a
requestAnimationFrame callback boundary, to the next). Machine integers are modelled as
Nat; pixel buffers as List Nat.
-/

namespace TauriNes

/-- Controller buttons, the field names of the ControllerState record defined in
src/src/App.tsx lines 22-31. -/
inductive Button
  | a_button
  | b_button
  | start
  | select
  | up
  | down
  | left
  | right
deriving DecidableEq, Repr

/-- ControllerState from src/src/App.tsx lines 22-31: a fixed record of eight
boolean button levels. -/
structure ControllerState where
  a_button : Bool
  b_button : Bool
  start : Bool
  select : Bool
  up : Bool
  down : Bool
  left : Bool
  right : Bool
deriving DecidableEq, Repr

namespace AppTsx

/-- keyToButtonMap from src/src/App.tsx lines 36-45: the static key binding map.
A key code not listed is unmapped (none). -/
def keyToButtonMap : String → Option Button
  | "KeyZ" => some .a_button
  | "KeyX" => some .b_button
  | "Enter" => some .start
  | "ShiftRight" => some .select
  | "ArrowUp" => some .up
  | "ArrowDown" => some .down
  | "ArrowLeft" => some .left
  | "ArrowRight" => some .right
  | _ => none

/-- The initial all-false controller state of src/src/App.tsx lines 47-56. -/
def initialControllerState : ControllerState :=
  ⟨false, false, false, false, false, false, false, false⟩

/-- Assignment controllerState[button] = isKeyDown from src/src/App.tsx line 62. -/
def setButton (st : ControllerState) (b : Button) (v : Bool) : ControllerState :=
  match b with
  | .a_button => { st with a_button := v }
  | .b_button => { st with b_button := v }
  | .start => { st with start := v }
  | .select => { st with select := v }
  | .up => { st with up := v }
  | .down => { st with down := v }
  | .left => { st with left := v }
  | .right => { st with right := v }

/-- Read one field of the controller state. -/
def getButton (st : ControllerState) (b : Button) : Bool :=
  match b with
  | .a_button => st.a_button
  | .b_button => st.b_button
  | .start => st.start
  | .select => st.select
  | .up => st.up
  | .down => st.down
  | .left => st.left
  | .right => st.right

/-- handleKeyEvent from src/src/App.tsx lines 59-66.
Returns the updated controller state together with the payload dispatched to the
engine via invoke handle_input: on a mapped key the field is set to isKeyDown and a
copy of the whole updated state is dispatched; on an unmapped key nothing happens
and nothing is dispatched. -/
def handleKeyEvent (st : ControllerState) (code : String) (isKeyDown : Bool) :
    ControllerState × Option ControllerState :=
  match keyToButtonMap code with
  | some b =>
      let st2 := setButton st b isKeyDown
      (st2, some st2)
  | none => (st, none)

end AppTsx

namespace AppLower

/-- handleKeyDown and handleKeyUp from src/src/app.tsx lines 13-22: every key event,
mapped or not, is forwarded wholesale to the engine as an invoke of
handle_keyboard_event with the raw key code and pressed flag. -/
def handleKeyboardDispatch (code : String) (pressed : Bool) : List (String × Bool) :=
  [(code, pressed)]

end AppLower

namespace Part001

/-- keyToButtonMap from src/unnamed/part_001 lines 26-35 (button names as strings). -/
def keyToButton : String → Option String
  | "KeyZ" => some "a"
  | "KeyX" => some "b"
  | "Enter" => some "start"
  | "ShiftRight" => some "select"
  | "ArrowUp" => some "up"
  | "ArrowDown" => some "down"
  | "ArrowLeft" => some "left"
  | "ArrowRight" => some "right"
  | _ => none

/-- The arrow key codes listed at src/unnamed/part_001 line 207. -/
def arrowKeys : List String := ["ArrowUp", "ArrowDown", "ArrowLeft", "ArrowRight"]

/-- Result of one run of the part_001 handleKeyEvent body (lines 197-235):
which invoke dispatches were issued, whether the test-mode flip was registered to run
when the Space dispatch resolves, and whether preventDefault was called. -/
structure KeyEventEffect where
  dispatches : List (String × Bool)
  flipOnResolve : Bool
  prevented : Bool
deriving DecidableEq, Repr

/-- handleKeyEvent from src/unnamed/part_001 lines 197-235.
A mapped key is forwarded to the engine (invoke handle_key_event with keyCode and
pressed, line 221). The Space key on its press edge is also forwarded (line 230) and
the local test-mode flip is attached to the resolution of that dispatch (line 231);
Space is not in the button map. preventDefault is called on the press edge for Space,
arrow keys and mapped keys (lines 202-214). -/
def handleKeyEvent (keyCode : String) (pressed : Bool) : KeyEventEffect :=
  let isMapped := (keyToButton keyCode).isSome
  let prevented :=
    ((keyCode == "Space") && pressed) ||
    (arrowKeys.contains keyCode && pressed) ||
    (isMapped && pressed)
  let mappedDispatch := if isMapped then [(keyCode, pressed)] else []
  let spaceDispatch := if (keyCode == "Space") && pressed then [(keyCode, pressed)] else []
  { dispatches := mappedDispatch ++ spaceDispatch
    flipOnResolve := (keyCode == "Space") && pressed
    prevented := prevented }

/-- The then/catch continuation of the Space dispatch (src/unnamed/part_001
lines 230-232 and 419-423): the test-mode flag flips only when a flip was registered
and the dispatch resolved successfully; on rejection the flag is unchanged. -/
def applyTestModeResolve (testMode flipOnResolve dispatchOk : Bool) : Bool :=
  if flipOnResolve && dispatchOk then !testMode else testMode

/-- onTestModeToggle from src/unnamed/part_001 lines 419-423: the UI button simulates
a Space press, forwarding it to the engine and flipping local state on resolution. -/
def onTestModeToggle : KeyEventEffect :=
  { dispatches := [("Space", true)], flipOnResolve := true, prevented := false }

end Part001

/-- Stage of an openDialog invocation: not running, suspended on the file dialog,
or suspended on the load_rom invoke. -/
inductive DialogStage
  | idle
  | awaitingDialog
  | awaitingLoad
deriving DecidableEq, Repr

namespace Part001

/-- Abstraction of the romStatus string state of src/unnamed/part_001 line 67:
notLoaded is the initial Not Loaded text, selectionCanceled the Selection canceled
text (line 314), loadingRom the Loading ROM text (line 326), loaded the ROM: name
text (line 337), loadError the Error text (line 350). -/
inductive RomStatus
  | notLoaded
  | selectionCanceled
  | loadingRom
  | loaded
  | loadError
deriving DecidableEq, Repr

/-- What the most recent canvas operation left on the presentation surface:
blank (nothing drawn yet), cleared (clearCanvas, lines 238-255), the
Waiting-for-frame placeholder (lines 118-123), the Invalid-Data placeholder
(lines 107-112), the Drawing-Error placeholder (lines 127-132), or a decoded
frame of the given dimensions and RGBA bytes (lines 96-116). -/
inductive DrawOut
  | blank
  | cleared
  | waiting
  | invalidData
  | drawError
  | frame (width height : Nat) (bytes : List Nat)
deriving DecidableEq, Repr

/-- Shape of the pixels field of a get_frame payload: a byte sequence (a JS array or
typed array, both copied by imageData.data.set), or a value of the wrong type
(neither, line 105). -/
inductive PixelPayload
  | arr (bytes : List Nat)
  | invalid
deriving DecidableEq, Repr

/-- Outcome of one awaited invoke get_frame call (line 80): a resolved FrameData
payload, or a rejection (caught at line 125). -/
inductive GetFrameResult
  | success (width height : Nat) (pix : PixelPayload)
  | failure
deriving DecidableEq, Repr

/-- State of the part_001 component relevant to the claims: the React state
variables (lines 61-68), the number of unresolved get_frame fetches, the number of
scheduled requestAnimationFrame callbacks for drawFrame, the stage of an open
dialog, what the canvas shows, and how many invoke load_rom calls were issued. -/
structure LoopState where
  isRunning : Bool
  romLoaded : Bool
  frameCount : Nat
  romStatus : RomStatus
  inflight : Nat
  scheduledRAF : Nat
  dialog : DialogStage
  lastDraw : DrawOut
  loadCalls : Nat
deriving DecidableEq, Repr

/-- State after mount (effects at lines 141-167 and 258-294): once the canvas
context state is set, the effect at line 141 re-runs and its drawFrame call issues
the single initial get_frame fetch; isRunning is false so that fetch will not
reschedule. -/
def init : LoopState :=
  { isRunning := false, romLoaded := false, frameCount := 0, romStatus := .notLoaded
    inflight := 1, scheduledRAF := 0, dialog := .idle, lastDraw := .blank
    loadCalls := 0 }

/-- Resolution segment of drawFrame (src/unnamed/part_001 lines 79-138), entered
when one in-flight get_frame settles. On rejection the Drawing-Error placeholder is
painted and, because the catch block falls through to line 135, the next callback is
scheduled if isRunning. On a payload with positive dimensions: a wrong-typed pixels
value paints the Invalid-Data placeholder and returns early (line 113), skipping the
reschedule; a byte payload longer than width*height*4 makes imageData.data.set throw
a RangeError that lands in the same catch (error placeholder, then reschedule);
otherwise the bytes are copied into the zero-initialised ImageData, so the presented
buffer is the payload padded with zeros, and the loop reschedules if isRunning.
Non-positive dimensions paint the Waiting placeholder and reschedule if isRunning. -/
def drawFrameResolve (s : LoopState) (r : GetFrameResult) : LoopState :=
  let resched := if s.isRunning then s.scheduledRAF + 1 else s.scheduledRAF
  match r with
  | .failure =>
      { s with inflight := s.inflight - 1, lastDraw := .drawError, scheduledRAF := resched }
  | .success w h pix =>
      if 0 < w ∧ 0 < h then
        match pix with
        | .invalid =>
            { s with inflight := s.inflight - 1, lastDraw := .invalidData }
        | .arr bytes =>
            if 4 * w * h < bytes.length then
              { s with inflight := s.inflight - 1, lastDraw := .drawError,
                       scheduledRAF := resched }
            else
              { s with inflight := s.inflight - 1,
                       lastDraw := .frame w h
                         (bytes ++ List.replicate (4 * w * h - bytes.length) 0),
                       scheduledRAF := resched }
      else
        { s with inflight := s.inflight - 1, lastDraw := .waiting, scheduledRAF := resched }

/-- Firing of one scheduled requestAnimationFrame callback (line 137): the callback
runs the drawFrame body up to its first await, issuing one get_frame fetch. -/
def rafFire (s : LoopState) : LoopState :=
  { s with scheduledRAF := s.scheduledRAF - 1, inflight := s.inflight + 1 }

/-- Re-run of the effect at lines 141-167 after the drawFrame callback identity
changes (its useCallback dependencies include isRunning): the cleanup cancels the
most recently stored animation frame id and the effect body calls drawFrame, issuing
a fetch. -/
def effectRerun (s : LoopState) : LoopState :=
  { s with scheduledRAF := s.scheduledRAF - 1, inflight := s.inflight + 1 }

/-- Click on Load NES ROM (openDialog, lines 297-309 up to the awaited open call):
clearCanvas paints black, then the dialog opens. -/
def clickLoadRom (s : LoopState) : LoopState :=
  { s with dialog := .awaitingDialog, lastDraw := .cleared }

/-- openDialog continuation when the dialog resolves with no selection (lines
312-316): only the status text changes. -/
def openDialogCancelled (s : LoopState) : LoopState :=
  { s with dialog := .idle, romStatus := .selectionCanceled }

/-- openDialog continuation when the dialog resolves with a single file (lines
325-329): status becomes Loading and invoke load_rom is issued and awaited. -/
def openDialogSelected (s : LoopState) : LoopState :=
  { s with dialog := .awaitingLoad, romStatus := .loadingRom, loadCalls := s.loadCalls + 1 }

/-- openDialog continuation when load_rom resolves (lines 332-344): the frame
counter is reset, romLoaded set, status set to the ROM name, isRunning set true, and
drawFrame is called directly to draw the initial frame (line 343), issuing a fetch.
If isRunning was previously false its change recreates the drawFrame callback and
re-runs the effect at line 141, which issues a second fetch. -/
def loadRomResolved (s : LoopState) : LoopState :=
  let base :=
    { s with dialog := .idle, frameCount := 0, romLoaded := true,
             romStatus := .loaded, isRunning := true, inflight := s.inflight + 1 }
  if s.isRunning then base else effectRerun base

/-- openDialog catch when load_rom rejects (lines 348-352): status becomes the
error text and romLoaded is cleared; isRunning is not touched and drawFrame is not
called. -/
def loadRomRejected (s : LoopState) : LoopState :=
  { s with dialog := .idle, romStatus := .loadError, romLoaded := false }

/-- onRunToggle from src/unnamed/part_001 lines 424-431: setIsRunning with the
negated flag and nothing else; the isRunning change recreates drawFrame and re-runs
the effect at line 141 (cancel stored id, call drawFrame). The button is disabled
unless the status shows a loaded ROM (line 387). -/
def onRunToggle (s : LoopState) : LoopState :=
  effectRerun { s with isRunning := !s.isRunning }

/-- Transitions of the loop that belong to the acquisition cycle itself: a scheduled
callback firing, or an in-flight fetch settling. -/
inductive InternalStep : LoopState → LoopState → Prop
  | rafFire (s : LoopState) (h : 0 < s.scheduledRAF) : InternalStep s (rafFire s)
  | resolve (s : LoopState) (r : GetFrameResult) (h : 0 < s.inflight) :
      InternalStep s (drawFrameResolve s r)

/-- All transitions of the part_001 component: internal acquisition steps plus the
operator-driven dialog, load and toggle segments. -/
inductive Step : LoopState → LoopState → Prop
  | internal {s t : LoopState} : InternalStep s t → Step s t
  | clickLoadRom (s : LoopState) (h : s.dialog = .idle) : Step s (clickLoadRom s)
  | dialogCancel (s : LoopState) (h : s.dialog = .awaitingDialog) :
      Step s (openDialogCancelled s)
  | dialogSelect (s : LoopState) (h : s.dialog = .awaitingDialog) :
      Step s (openDialogSelected s)
  | loadOk (s : LoopState) (h : s.dialog = .awaitingLoad) : Step s (loadRomResolved s)
  | loadFail (s : LoopState) (h : s.dialog = .awaitingLoad) : Step s (loadRomRejected s)
  | toggleRun (s : LoopState) (h : s.romStatus = .loaded) : Step s (onRunToggle s)

/-- States reachable from the post-mount state. -/
inductive Reach : LoopState → Prop
  | init : Reach init
  | step {s t : LoopState} : Reach s → Step s t → Reach t

/-- Trace state: the initial mount fetch has settled (rejected: no ROM loaded). -/
def s1 : LoopState := drawFrameResolve init .failure

/-- Trace state: the operator clicked Load NES ROM. -/
def s2 : LoopState := clickLoadRom s1

/-- Trace state: the dialog resolved with a file and load_rom was issued. -/
def s3 : LoopState := openDialogSelected s2

/-- Trace state: load_rom resolved; openDialog called drawFrame directly and the
isRunning change re-ran the canvas effect, which called drawFrame again. -/
def s4 : LoopState := loadRomResolved s3

/-- Trace state: one of the two in-flight fetches resolved with a wrong-typed
pixels payload. -/
def s5 : LoopState := drawFrameResolve s4 (.success 2 2 .invalid)

/-- Trace state: the second in-flight fetch also resolved with a wrong-typed
payload; nothing is in flight or scheduled any more. -/
def s6 : LoopState := drawFrameResolve s5 (.success 2 2 .invalid)

end Part001

namespace Part000

/-- Pixel copy loop of drawFrame in src/unnamed/part_000 lines 104-115: the
ImageData buffer of size width*height*4 starts zeroed and the loop copies
pixels[i] for every index below both lengths, so trailing extra payload bytes are
ignored and a short payload leaves the tail zero. -/
def copyPixels (width height : Nat) (pixels : List Nat) : List Nat :=
  (List.range (4 * width * height)).map fun i => pixels.getD i 0

end Part000

namespace AppMain

/-- Outcome of one awaited invoke run_emulator_frame call in src/src/App.tsx
line 108: a resolved FrameData payload or a rejection. -/
inductive FetchResult
  | success (width height : Nat) (pixels : List Nat)
  | failure
deriving DecidableEq, Repr

/-- Frame decoding performed by drawFrame in src/src/App.tsx lines 83-100: the
ImageData constructor called at line 96 accepts the byte buffer only when the
dimensions are positive and pixels.length equals width*height*4 exactly; any other
payload makes it throw, which the model reports as an error without reading any
byte. -/
def drawFrameDecode (width height : Nat) (pixels : List Nat) :
    Except Unit (List Nat) :=
  if 0 < width ∧ 0 < height ∧ pixels.length = 4 * width * height then .ok pixels
  else .error ()

/-- State of the src/src/App.tsx component relevant to the claims: the romLoaded
flag (line 15), the number of unresolved run_emulator_frame fetches, the number of
scheduled requestAnimationFrame callbacks for runEmulatorLoop, what the canvas
shows, the dialog stage of openDialog, the number of load_rom calls, and a counter
of loop ticks that have run. -/
structure LoopState where
  romLoaded : Bool
  inflight : Nat
  scheduledRAF : Nat
  canvasDraw : Option (Nat × Nat × List Nat)
  dialog : DialogStage
  loadCalls : Nat
  ticks : Nat
deriving DecidableEq, Repr

/-- State after mount: the effect at lines 123-133 schedules the first
runEmulatorLoop callback. -/
def init : LoopState :=
  { romLoaded := false, inflight := 0, scheduledRAF := 0 + 1, canvasDraw := none
    dialog := .idle, loadCalls := 0, ticks := 0 }

/-- Net effect on the scheduled-callback count of the effect at src/src/App.tsx
lines 123-133 re-running after romLoaded changes: the cleanup cancels the most
recently stored animation frame id (a no-op when none is pending) and the body
schedules a fresh callback. -/
def restartRAF (n : Nat) : Nat := if n = 0 then 1 else n

/-- Firing of one scheduled runEmulatorLoop callback (lines 103-120) up to its
first suspension: when romLoaded is true one run_emulator_frame fetch is issued and
the rest of the body waits for it; when romLoaded is false the body skips straight
to line 119 and schedules the next callback, so the loop idles but keeps ticking. -/
def loopTick (s : LoopState) : LoopState :=
  if s.romLoaded then
    { s with scheduledRAF := s.scheduledRAF - 1, inflight := s.inflight + 1,
             ticks := s.ticks + 1 }
  else
    { s with ticks := s.ticks + 1 }

/-- Resolution segment of runEmulatorLoop (lines 106-119), entered when the awaited
fetch settles. On success the payload goes through drawFrameDecode: a valid buffer
is put on the canvas; an invalid one throws inside the try, so the catch at line 111
runs, setRomLoaded(false) disarms fetching and the canvas is left untouched. On
rejection the same catch runs. In every case execution reaches line 119 and the
next callback is scheduled (the effect restart caused by a romLoaded flip cancels
exactly the id that line 119 stored and schedules a replacement, leaving the
count unchanged). -/
def loopResolve (s : LoopState) (r : FetchResult) : LoopState :=
  match r with
  | .failure =>
      { s with inflight := s.inflight - 1, romLoaded := false,
               scheduledRAF := s.scheduledRAF + 1 }
  | .success w h pixels =>
      match drawFrameDecode w h pixels with
      | .ok bytes =>
          { s with inflight := s.inflight - 1, canvasDraw := some (w, h, bytes),
                   scheduledRAF := s.scheduledRAF + 1 }
      | .error _ =>
          { s with inflight := s.inflight - 1, romLoaded := false,
                   scheduledRAF := s.scheduledRAF + 1 }

/-- Click on Load NES ROM (openDialog, src/src/App.tsx lines 140-145 up to the
awaited open call). -/
def clickLoadRom (s : LoopState) : LoopState :=
  { s with dialog := .awaitingDialog }

/-- openDialog continuation when the dialog resolves without a file path (lines
159-162): setRomLoaded(false) ensures no ROM counts as loaded; if that flips
romLoaded the loop effect restarts. -/
def openDialogCancelled (s : LoopState) : LoopState :=
  if s.romLoaded then
    { s with dialog := .idle, romLoaded := false, scheduledRAF := restartRAF s.scheduledRAF }
  else
    { s with dialog := .idle }

/-- openDialog continuation when the dialog resolves with a file path (lines
146-151): invoke load_rom is issued and awaited. -/
def openDialogSelected (s : LoopState) : LoopState :=
  { s with dialog := .awaitingLoad, loadCalls := s.loadCalls + 1 }

/-- openDialog continuation when load_rom resolves (lines 152-153):
setRomLoaded(true); if that flips romLoaded the loop effect restarts, which re-arms
the ticking loop; no frame is fetched manually. -/
def loadRomResolved (s : LoopState) : LoopState :=
  if s.romLoaded then
    { s with dialog := .idle }
  else
    { s with dialog := .idle, romLoaded := true, scheduledRAF := restartRAF s.scheduledRAF }

/-- openDialog catch when load_rom rejects (lines 154-158): setRomLoaded(false). -/
def loadRomRejected (s : LoopState) : LoopState :=
  if s.romLoaded then
    { s with dialog := .idle, romLoaded := false, scheduledRAF := restartRAF s.scheduledRAF }
  else
    { s with dialog := .idle }

/-- A typical running state of the src/src/App.tsx component: a ROM is loaded and
one frame fetch is in flight. -/
def witState : LoopState :=
  { romLoaded := true, inflight := 1, scheduledRAF := 0, canvasDraw := none
    dialog := .idle, loadCalls := 1, ticks := 5 }

end AppMain

namespace Diagnostics

/-- Modelled from the spec: the Diagnostics Poller of spec section 4.5 and the
MachineState readout of sections 3 and 6 have no counterpart in the provided
frontend sources (no produceMachineState or interval code exists under src); the
data model follows the spec MachineState record of byte registers and a 16-bit
program counter, represented as Nat. -/
structure MachineState where
  accumulator : Nat
  xRegister : Nat
  yRegister : Nat
  statusFlags : Nat
  programCounter : Nat
deriving DecidableEq, Repr

/-- Modelled from the spec: outcome of one produceMachineState fetch. -/
inductive DiagFetch
  | ok (v : MachineState)
  | fail
deriving DecidableEq, Repr

/-- Modelled from the spec: the fixed reference polling interval of spec
section 4.5, in milliseconds. -/
def intervalMs : Nat := 1000

/-- Modelled from the spec: one polling cycle of the Diagnostics Poller (spec
section 4.5). A successful fetch replaces the displayed snapshot wholesale; a
failed fetch is logged and keeps the previous displayed value. -/
def pollStep (displayed : Option MachineState) (r : DiagFetch) : Option MachineState :=
  match r with
  | .ok v => some v
  | .fail => displayed

/-- Modelled from the spec: a run of the poller over a sequence of fetch outcomes,
one per elapsed interval; the poller processes every outcome regardless of
failures (polling continues), independently of the frame-acquisition loop state. -/
def pollRun (displayed : Option MachineState) : List DiagFetch → Option MachineState
  | [] => displayed
  | r :: rs => pollRun (pollStep displayed r) rs

end Diagnostics

/-- The state s1 (initial fetch settled) is reachable. -/
theorem part001_reach_s1 : Part001.Reach Part001.s1 :=
  Part001.Reach.step Part001.Reach.init
    (Part001.Step.internal
      (Part001.InternalStep.resolve Part001.init Part001.GetFrameResult.failure (by decide)))

/-- The state s4 (two get_frame fetches in flight after a successful load) is
reachable: the operator clicks Load NES ROM, selects a file, load_rom resolves,
openDialog calls drawFrame directly and the isRunning change re-runs the canvas
effect, whose drawFrame call issues a second fetch before the first resolves. -/
theorem part001_reach_s4 : Part001.Reach Part001.s4 :=
  Part001.Reach.step
    (Part001.Reach.step
      (Part001.Reach.step part001_reach_s1
        (Part001.Step.clickLoadRom Part001.s1 (by decide)))
      (Part001.Step.dialogSelect Part001.s2 (by decide)))
    (Part001.Step.loadOk Part001.s3 (by decide))

/-- The state s6 (both fetches resolved with wrong-typed payloads) is reachable. -/
theorem part001_reach_s6 : Part001.Reach Part001.s6 :=
  Part001.Reach.step
    (Part001.Reach.step part001_reach_s4
      (Part001.Step.internal (Part001.InternalStep.resolve Part001.s4
        (Part001.GetFrameResult.success 2 2 Part001.PixelPayload.invalid) (by decide))))
    (Part001.Step.internal (Part001.InternalStep.resolve Part001.s5
      (Part001.GetFrameResult.success 2 2 Part001.PixelPayload.invalid) (by decide)))

/-- C1: counterexample. The claim says no two fetches are ever in flight
simultaneously. In the part_001 component the reachable state s4 has two unresolved
get_frame fetches at once: after load_rom resolves, openDialog calls drawFrame
directly (line 343) and the isRunning change re-runs the canvas effect (line 141),
which calls drawFrame again before the first fetch resolves. -/
theorem c1_two_fetches_in_flight :
    Part001.Reach Part001.s4 ∧ Part001.s4.inflight = 2 ∧ Part001.s4.isRunning = true :=
  ⟨part001_reach_s4, by decide, by decide⟩

/-- C1 (amended): the acquisition loop proper does maintain the discipline the claim
describes: a callback firing or a fetch resolution never increases the number of
outstanding-plus-scheduled requests, so a single drawFrame chain never has two
fetches in flight; only the extra chain-starting drawFrame calls of the load path
break the global at-most-one-outstanding invariant. -/
theorem c1_internal_steps_preserve_outstanding_bound :
    ∀ s t : Part001.LoopState, Part001.InternalStep s t →
      t.inflight + t.scheduledRAF ≤ s.inflight + s.scheduledRAF := by
  intro s t h
  cases h with
  | rafFire h =>
      simp only [Part001.rafFire]
      omega
  | resolve r h =>
      cases r with
      | failure =>
          simp only [Part001.drawFrameResolve]
          repeat' split
          all_goals try simp
          all_goals omega
      | success w h2 pix =>
          cases pix with
          | invalid =>
              simp only [Part001.drawFrameResolve]
              repeat' split
              all_goals try simp
              all_goals omega
          | arr bytes =>
              simp only [Part001.drawFrameResolve]
              repeat' split
              all_goals try simp
              all_goals omega

/-- C1 (witness): the bound theorem applied to the settling of the initial fetch. -/
theorem c1_internal_steps_bound_witness :
    (Part001.drawFrameResolve Part001.init Part001.GetFrameResult.failure).inflight +
        (Part001.drawFrameResolve Part001.init Part001.GetFrameResult.failure).scheduledRAF ≤
      Part001.init.inflight + Part001.init.scheduledRAF :=
  c1_internal_steps_preserve_outstanding_bound Part001.init _
    (Part001.InternalStep.resolve Part001.init Part001.GetFrameResult.failure (by decide))

/-- C2: for every press or release edge on a mapped key, handleKeyEvent of
src/src/App.tsx sets exactly the corresponding ControllerState field to the pressed
value, leaves every other field at its last-known value, and dispatches the entire
updated ControllerState to the engine. -/
theorem c2_mapped_key_full_state_dispatch :
    ∀ (st : ControllerState) (code : String) (p : Bool) (b : Button),
      AppTsx.keyToButtonMap code = some b →
      AppTsx.handleKeyEvent st code p =
        (AppTsx.setButton st b p, some (AppTsx.setButton st b p)) ∧
      AppTsx.getButton (AppTsx.setButton st b p) b = p ∧
      ∀ b2 : Button, b2 ≠ b →
        AppTsx.getButton (AppTsx.setButton st b p) b2 = AppTsx.getButton st b2 := by
  intro st code p b hmap
  refine ⟨?_, ?_, ?_⟩
  · simp [AppTsx.handleKeyEvent, hmap]
  · cases b <;> simp [AppTsx.setButton, AppTsx.getButton]
  · intro b2 hne
    cases b <;> cases b2 <;> simp_all [AppTsx.setButton, AppTsx.getButton]

/-- C2 (witness): the KeyZ press edge on the initial state. -/
theorem c2_mapped_key_witness :
    AppTsx.keyToButtonMap "KeyZ" = some Button.a_button ∧
    AppTsx.handleKeyEvent AppTsx.initialControllerState "KeyZ" true =
      (AppTsx.setButton AppTsx.initialControllerState Button.a_button true,
       some (AppTsx.setButton AppTsx.initialControllerState Button.a_button true)) ∧
    AppTsx.getButton (AppTsx.setButton AppTsx.initialControllerState Button.a_button true)
        Button.up =
      AppTsx.getButton AppTsx.initialControllerState Button.up :=
  ⟨rfl,
   (c2_mapped_key_full_state_dispatch AppTsx.initialControllerState "KeyZ" true
      Button.a_button rfl).1,
   (c2_mapped_key_full_state_dispatch AppTsx.initialControllerState "KeyZ" true
      Button.a_button rfl).2.2 Button.up (by decide)⟩

/-- C3: counterexample. The claim says a key absent from the binding map causes no
dispatch to the engine. The Space key is absent from the part_001 binding map, yet
its press edge is dispatched to the engine via invoke handle_key_event (line 230). -/
theorem c3_space_key_dispatch_counterexample :
    Part001.keyToButton "Space" = none ∧
    (Part001.handleKeyEvent "Space" true).dispatches = [("Space", true)] :=
  ⟨rfl, rfl⟩

/-- C3 (amended): in the src/src/App.tsx translator, which owns the ControllerState,
an unmapped key leaves the state unchanged and dispatches nothing; in the part_001
handler an unmapped key other than the reserved Space key dispatches nothing; the
legacy src/src/app.tsx handler forwards every raw key event wholesale and no key
handler modifies a local ControllerState for unmapped keys. -/
theorem c3_unmapped_key_no_dispatch_amended :
    (∀ (st : ControllerState) (code : String) (p : Bool),
        AppTsx.keyToButtonMap code = none →
        AppTsx.handleKeyEvent st code p = (st, none)) ∧
    (∀ (code : String) (p : Bool),
        Part001.keyToButton code = none → code ≠ "Space" →
        (Part001.handleKeyEvent code p).dispatches = []) ∧
    (∀ (code : String) (p : Bool),
        AppLower.handleKeyboardDispatch code p = [(code, p)]) := by
  refine ⟨?_, ?_, ?_⟩
  · intro st code p hmap
    simp [AppTsx.handleKeyEvent, hmap]
  · intro code p hmap hne
    simp [Part001.handleKeyEvent, hmap, hne]
  · intro code p
    rfl

/-- C3 (witness): the amended theorem applied to the unmapped KeyQ press edge. -/
theorem c3_unmapped_key_witness :
    AppTsx.handleKeyEvent AppTsx.initialControllerState "KeyQ" true =
      (AppTsx.initialControllerState, none) ∧
    (Part001.handleKeyEvent "KeyQ" true).dispatches = [] :=
  ⟨c3_unmapped_key_no_dispatch_amended.1 AppTsx.initialControllerState "KeyQ" true rfl,
   c3_unmapped_key_no_dispatch_amended.2.1 "KeyQ" true rfl (by decide)⟩

/-- C4: counterexample. The claim says a malformed payload yields a decode error,
one placeholder is rendered and the scheduler keeps ticking. In part_001 the
reachable state s6 refutes the scheduler-continuation part: both wrong-typed
payload resolutions painted the Invalid-Data placeholder but returned before the
reschedule (line 113), so with isRunning still true nothing is in flight and
nothing is scheduled: the loop is dead. Moreover a short payload (8 bytes for a
2 by 2 frame) is not detected as an error at all: it is drawn as a zero-padded
frame. -/
theorem c4_wrong_type_payload_counterexample :
    Part001.Reach Part001.s6 ∧
    Part001.s6.lastDraw = Part001.DrawOut.invalidData ∧
    Part001.s6.isRunning = true ∧
    Part001.s6.inflight = 0 ∧
    Part001.s6.scheduledRAF = 0 ∧
    (Part001.drawFrameResolve Part001.s4
        (Part001.GetFrameResult.success 2 2
          (Part001.PixelPayload.arr (List.replicate 8 1)))).lastDraw =
      Part001.DrawOut.frame 2 2 (List.replicate 8 1 ++ List.replicate 8 0) :=
  ⟨part001_reach_s6, by decide, by decide, by decide, by decide, by decide⟩

/-- C4 (amended): in src/src/App.tsx a payload whose length is not exactly
width*height*4 (a short one included) makes the ImageData constructor throw, a
typed decode failure with no out-of-bounds read; no placeholder is rendered (the
canvas is untouched), fetching is disarmed (romLoaded becomes false) and the idle
tick keeps being scheduled. In part_001 a short payload is not an error (it is
prefix-copied into the zero-filled buffer and presented), a wrong-typed payload
renders the Invalid-Data placeholder but terminates the loop chain without
rescheduling. -/
theorem c4_decode_error_handling_amended :
    AppMain.drawFrameDecode 2 2 (List.replicate 8 0) = Except.error () ∧
    (∀ s : AppMain.LoopState,
        AppMain.loopResolve s (AppMain.FetchResult.success 2 2 (List.replicate 8 0)) =
          { s with inflight := s.inflight - 1, romLoaded := false,
                   scheduledRAF := s.scheduledRAF + 1 }) ∧
    (∀ s : Part001.LoopState,
        (Part001.drawFrameResolve s
            (Part001.GetFrameResult.success 2 2 Part001.PixelPayload.invalid)).lastDraw =
          Part001.DrawOut.invalidData ∧
        (Part001.drawFrameResolve s
            (Part001.GetFrameResult.success 2 2 Part001.PixelPayload.invalid)).scheduledRAF =
          s.scheduledRAF) ∧
    (∀ s : Part001.LoopState,
        (Part001.drawFrameResolve s
            (Part001.GetFrameResult.success 2 2
              (Part001.PixelPayload.arr (List.replicate 8 1)))).lastDraw =
          Part001.DrawOut.frame 2 2 (List.replicate 8 1 ++ List.replicate 8 0)) := by
  refine ⟨rfl, ?_, ?_, ?_⟩
  · intro s; rfl
  · intro s; exact ⟨rfl, rfl⟩
  · intro s; rfl

/-- C5: counterexample. The claim says a failed frame fetch makes running false and
surfaces the error in the program status. In part_001, from the reachable running
state s4, a get_frame rejection leaves isRunning true and romStatus still showing
the loaded ROM; the loop even reschedules and keeps fetching. -/
theorem c5_fetch_failure_counterexample :
    Part001.Reach Part001.s4 ∧
    (Part001.drawFrameResolve Part001.s4 Part001.GetFrameResult.failure).isRunning = true ∧
    (Part001.drawFrameResolve Part001.s4 Part001.GetFrameResult.failure).romStatus =
      Part001.RomStatus.loaded ∧
    0 < (Part001.drawFrameResolve Part001.s4 Part001.GetFrameResult.failure).scheduledRAF :=
  ⟨part001_reach_s4, by decide, by decide, by decide⟩

/-- C5 (amended): in src/src/App.tsx a fetch failure disarms fetching (romLoaded
becomes false, the error being only logged, with no status readout) while the tick
loop keeps idling without issuing fetches; a subsequent successful file selection
re-arms fetching and the very next tick issues the first frame fetch of the new
program without any manual first fetch. In part_001 a fetch failure changes neither
isRunning nor romStatus (see the counterexample). -/
theorem c5_fetch_failure_recovery_amended :
    ∀ s : AppMain.LoopState, s.romLoaded = true →
      ((AppMain.loopResolve s AppMain.FetchResult.failure).romLoaded = false ∧
       (AppMain.loopResolve s AppMain.FetchResult.failure).scheduledRAF =
         s.scheduledRAF + 1 ∧
       (AppMain.loopTick (AppMain.loopResolve s AppMain.FetchResult.failure)).ticks =
         (AppMain.loopResolve s AppMain.FetchResult.failure).ticks + 1 ∧
       (AppMain.loopTick (AppMain.loopResolve s AppMain.FetchResult.failure)).inflight =
         (AppMain.loopResolve s AppMain.FetchResult.failure).inflight ∧
       (AppMain.loadRomResolved (AppMain.openDialogSelected (AppMain.clickLoadRom
           (AppMain.loopResolve s AppMain.FetchResult.failure)))).romLoaded = true ∧
       0 < (AppMain.loadRomResolved (AppMain.openDialogSelected (AppMain.clickLoadRom
           (AppMain.loopResolve s AppMain.FetchResult.failure)))).scheduledRAF ∧
       (AppMain.loopTick (AppMain.loadRomResolved (AppMain.openDialogSelected
           (AppMain.clickLoadRom (AppMain.loopResolve s
             AppMain.FetchResult.failure))))).inflight =
         (AppMain.loadRomResolved (AppMain.openDialogSelected (AppMain.clickLoadRom
           (AppMain.loopResolve s AppMain.FetchResult.failure)))).inflight + 1) := by
  intro s hrom
  simp [AppMain.loopResolve, AppMain.loopTick, AppMain.clickLoadRom,
        AppMain.openDialogSelected, AppMain.loadRomResolved, AppMain.restartRAF]

/-- C5 (witness): the recovery theorem applied to a typical running state. -/
theorem c5_fetch_failure_recovery_witness :
    AppMain.witState.romLoaded = true ∧
    (AppMain.loopResolve AppMain.witState AppMain.FetchResult.failure).romLoaded = false ∧
    (AppMain.loopTick (AppMain.loadRomResolved (AppMain.openDialogSelected
        (AppMain.clickLoadRom (AppMain.loopResolve AppMain.witState
          AppMain.FetchResult.failure))))).inflight =
      (AppMain.loadRomResolved (AppMain.openDialogSelected (AppMain.clickLoadRom
        (AppMain.loopResolve AppMain.witState AppMain.FetchResult.failure)))).inflight + 1 :=
  ⟨rfl, (c5_fetch_failure_recovery_amended AppMain.witState rfl).1,
   (c5_fetch_failure_recovery_amended AppMain.witState rfl).2.2.2.2.2.2⟩

/-- C6: the Diagnostics Poller model fetches one MachineState snapshot per fixed
1000 ms interval; a successful fetch replaces the displayed snapshot, a failed
fetch keeps the previous displayed value, and once a value is displayed no run of
the poller ever blanks it. -/
theorem c6_diagnostics_poller_contract :
    Diagnostics.intervalMs = 1000 ∧
    (∀ d : Option Diagnostics.MachineState, Diagnostics.pollStep d .fail = d) ∧
    (∀ (d : Option Diagnostics.MachineState) (v : Diagnostics.MachineState),
        Diagnostics.pollStep d (.ok v) = some v) ∧
    (∀ (rs : List Diagnostics.DiagFetch) (d : Option Diagnostics.MachineState),
        d.isSome → (Diagnostics.pollRun d rs).isSome) := by
  refine ⟨rfl, fun d => rfl, fun d v => rfl, ?_⟩
  intro rs
  induction rs with
  | nil => intro d hd; exact hd
  | cons r rs ih =>
      intro d hd
      cases r with
      | ok v => exact ih (some v) rfl
      | fail => exact ih d hd

/-- C6 (witness): a displayed snapshot survives two consecutive failed polls. -/
theorem c6_diagnostics_poller_witness :
    (some (Diagnostics.MachineState.mk 1 2 3 4 5)).isSome ∧
    (Diagnostics.pollRun (some (Diagnostics.MachineState.mk 1 2 3 4 5))
        [Diagnostics.DiagFetch.fail, Diagnostics.DiagFetch.fail]).isSome :=
  ⟨rfl, c6_diagnostics_poller_contract.2.2.2
    [Diagnostics.DiagFetch.fail, Diagnostics.DiagFetch.fail]
    (some (Diagnostics.MachineState.mk 1 2 3 4 5)) rfl⟩

/-- C7: while the status readout shows a loaded ROM (the only situation where the
Start/Stop button is enabled, part_001 line 387), onRunToggle flips isRunning and
changes neither the frame counter, the number of load_rom calls, the romLoaded flag
nor the status; toggling twice returns to the original running flag with the same
program and with a fetch in flight, so fetching of the same program resumes. -/
theorem c7_run_toggle_pure_flip :
    ∀ s : Part001.LoopState, s.romStatus = Part001.RomStatus.loaded →
      ((Part001.onRunToggle s).frameCount = s.frameCount ∧
       (Part001.onRunToggle s).loadCalls = s.loadCalls ∧
       (Part001.onRunToggle s).romLoaded = s.romLoaded ∧
       (Part001.onRunToggle s).romStatus = s.romStatus ∧
       (Part001.onRunToggle s).isRunning = !s.isRunning ∧
       (Part001.onRunToggle (Part001.onRunToggle s)).isRunning = s.isRunning ∧
       (Part001.onRunToggle (Part001.onRunToggle s)).frameCount = s.frameCount ∧
       (Part001.onRunToggle (Part001.onRunToggle s)).loadCalls = s.loadCalls ∧
       (Part001.onRunToggle (Part001.onRunToggle s)).romStatus = s.romStatus ∧
       0 < (Part001.onRunToggle (Part001.onRunToggle s)).inflight) := by
  intro s hready
  simp [Part001.onRunToggle, Part001.effectRerun]

/-- C7 (witness): the toggle theorem applied to the loaded running state s4. -/
theorem c7_run_toggle_witness :
    Part001.s4.romStatus = Part001.RomStatus.loaded ∧
    (Part001.onRunToggle Part001.s4).isRunning = !Part001.s4.isRunning ∧
    (Part001.onRunToggle (Part001.onRunToggle Part001.s4)).frameCount =
      Part001.s4.frameCount :=
  ⟨by decide, (c7_run_toggle_pure_flip Part001.s4 (by decide)).2.2.2.2.1,
   (c7_run_toggle_pure_flip Part001.s4 (by decide)).2.2.2.2.2.2.1⟩

/-- C8: on the Space press edge the key event is forwarded to the engine and the
test-mode flip is attached to that dispatch resolving (part_001 lines 226-234): the
flag flips only when the dispatch succeeds and is unchanged when it fails; the
release edge forwards nothing and flips nothing; Space is absent from the button
maps and its handling in src/src/App.tsx leaves every ControllerState field
untouched and dispatches no controller state. -/
theorem c8_space_test_mode_round_trip :
    (Part001.handleKeyEvent "Space" true).dispatches = [("Space", true)] ∧
    (Part001.handleKeyEvent "Space" true).flipOnResolve = true ∧
    (Part001.handleKeyEvent "Space" false).dispatches = [] ∧
    (Part001.handleKeyEvent "Space" false).flipOnResolve = false ∧
    (∀ tm : Bool, Part001.applyTestModeResolve tm true true = !tm) ∧
    (∀ tm : Bool, Part001.applyTestModeResolve tm true false = tm) ∧
    (∀ (st : ControllerState) (p : Bool),
        AppTsx.handleKeyEvent st "Space" p = (st, none)) ∧
    Part001.keyToButton "Space" = none ∧
    Part001.onTestModeToggle.flipOnResolve = true := by
  refine ⟨rfl, rfl, rfl, rfl, by decide, by decide, ?_, rfl, rfl⟩
  intro st p
  rfl

/-- C9: counterexample. The claim says a payload longer than width*height*4 decodes
successfully with the extra bytes ignored. In part_001, from the reachable running
state s4, a 5-byte payload for a 1 by 1 frame makes imageData.data.set throw a
RangeError, so the catch paints the Drawing-Error placeholder instead of a frame;
the src/src/App.tsx ImageData constructor likewise rejects it. -/
theorem c9_overlong_payload_counterexample :
    Part001.Reach Part001.s4 ∧
    0 < Part001.s4.inflight ∧
    (Part001.drawFrameResolve Part001.s4
        (Part001.GetFrameResult.success 1 1
          (Part001.PixelPayload.arr (List.replicate 5 7)))).lastDraw =
      Part001.DrawOut.drawError ∧
    AppMain.drawFrameDecode 1 1 (List.replicate 5 7) = Except.error () :=
  ⟨part001_reach_s4, by decide, by decide, rfl⟩

/-- C9 (amended): only the part_000 variant tolerates over-long payloads: its copy
loop is bounded by both buffer lengths, so exactly the first width*height*4 bytes
are presented and the extras are ignored with no error; in part_001 and
src/src/App.tsx an over-long payload is treated as a drawing error. -/
theorem c9_overlong_payload_amended :
    (∀ (w h : Nat) (pixels : List Nat), 4 * w * h ≤ pixels.length →
        Part000.copyPixels w h pixels = pixels.take (4 * w * h)) ∧
    (∀ s : Part001.LoopState,
        (Part001.drawFrameResolve s
            (Part001.GetFrameResult.success 1 1
              (Part001.PixelPayload.arr (List.replicate 5 7)))).lastDraw =
          Part001.DrawOut.drawError) ∧
    AppMain.drawFrameDecode 1 1 (List.replicate 5 7) = Except.error () := by
  refine ⟨?_, fun s => rfl, rfl⟩
  intro w h pixels hlen
  apply List.ext_getElem
  · simp [Part000.copyPixels]
    omega
  · intro i h1 h2
    simp only [Part000.copyPixels, List.getElem_map, List.getElem_range, List.getElem_take]
    have hi : i < pixels.length := by
      simp [Part000.copyPixels] at h1
      omega
    exact List.getD_eq_getElem pixels 0 hi

/-- C9 (witness): the amended theorem applied to a 5-byte payload for a 1 by 1
frame in the part_000 copy loop. -/
theorem c9_overlong_payload_witness :
    4 * 1 * 1 ≤ ([1, 2, 3, 4, 5] : List Nat).length ∧
    Part000.copyPixels 1 1 [1, 2, 3, 4, 5] = ([1, 2, 3, 4, 5] : List Nat).take (4 * 1 * 1) :=
  ⟨by decide, c9_overlong_payload_amended.1 1 1 [1, 2, 3, 4, 5] (by decide)⟩

/-- C10: in src/src/App.tsx, when a program is loaded and a new file selection is
started, both a cancelled selection and a rejected load_rom set romLoaded to false,
and the next loop tick then issues no fetch: the previously running program is
stopped rather than left running. -/
theorem c10_new_selection_failure_unloads :
    ∀ s : AppMain.LoopState, s.romLoaded = true →
      ((AppMain.openDialogCancelled (AppMain.clickLoadRom s)).romLoaded = false ∧
       (AppMain.loopTick (AppMain.openDialogCancelled (AppMain.clickLoadRom s))).inflight =
         (AppMain.openDialogCancelled (AppMain.clickLoadRom s)).inflight ∧
       (AppMain.loadRomRejected (AppMain.openDialogSelected
           (AppMain.clickLoadRom s))).romLoaded = false ∧
       (AppMain.loopTick (AppMain.loadRomRejected (AppMain.openDialogSelected
           (AppMain.clickLoadRom s)))).inflight =
         (AppMain.loadRomRejected (AppMain.openDialogSelected
           (AppMain.clickLoadRom s))).inflight) := by
  intro s hrom
  simp [AppMain.clickLoadRom, AppMain.openDialogCancelled, AppMain.openDialogSelected,
        AppMain.loadRomRejected, AppMain.loopTick, AppMain.restartRAF, hrom]

/-- C10 (witness): the unload theorem applied to a typical running state. -/
theorem c10_new_selection_failure_witness :
    AppMain.witState.romLoaded = true ∧
    (AppMain.openDialogCancelled (AppMain.clickLoadRom AppMain.witState)).romLoaded = false ∧
    (AppMain.loadRomRejected (AppMain.openDialogSelected
        (AppMain.clickLoadRom AppMain.witState))).romLoaded = false :=
  ⟨rfl, (c10_new_selection_failure_unloads AppMain.witState rfl).1,
   (c10_new_selection_failure_unloads AppMain.witState rfl).2.2.1⟩

end TauriNes
